import Mathlib

/-!
Verification development for the `lanorx-tracking` client SDK core
(`src/core/client.ts`).

The embedding models the JavaScript/TypeScript source shallowly:

* JSON values (the payload of `localStorage` cells, request bodies and
  parsed HTTP response bodies) are the inductive `JsonVal`.  A JavaScript
  value that may additionally be `undefined` is `Option JsonVal`
  (`none` = `undefined`).  JSON numbers are modelled as integers: every
  number the SDK itself writes (`Date.now()`, `Date.now() + TTL`) is an
  integer.
* `localStorage` is an association list from keys to cells.  A cell is
  either `.json j` — a string that `JSON.parse` parses to `j` — or
  `.raw s` — a string on which `JSON.parse` throws (this covers the
  legacy plain-string device ids the source explicitly handles).
  `JSON.stringify` output is always non-empty, so a `.json` cell is
  always truthy; a `.raw ""` cell is falsy under JavaScript's
  `if (stored)` test.
* Browser-environment availability (`typeof window === "undefined"`,
  storage accesses throwing, `navigator.userAgent`, `document.referrer`)
  is an explicit `Env` record; the non-determinism of `Math.random`
  and of the clock is made explicit by passing the freshly generated
  identifier and the current time as arguments.
* `fetch` together with `response.json()` is a `FetchOutcome` argument:
  either the promise chain threw (with the thrown value's `.message`, or
  `none` for a non-`Error` throwable, which the source maps to
  `"Unknown error"`), or a response with `ok`/`status` and a parsed JSON
  body was obtained.
-/

/-- A parsed JSON value.  Object field lists model the result of
`JSON.parse`, whose objects have unique keys. -/
inductive JsonVal where
  | null
  | bool (b : Bool)
  | num (n : Int)
  | str (s : String)
  | obj (fields : List (String × JsonVal))
  | arr (elems : List JsonVal)
deriving Repr

/-- First-match lookup in a field list (keys are unique after `JSON.parse`). -/
def lookupPairs : List (String × JsonVal) → String → Option JsonVal
  | [], _ => none
  | (k, v) :: rest, key => if k = key then some v else lookupPairs rest key

/-- JavaScript property access `j.key` on a non-`null` value: a field of an
object, `undefined` (`none`) otherwise.  Access on `null` throws and is
handled at each use site. -/
def jsField : JsonVal → String → Option JsonVal
  | .obj fs, key => lookupPairs fs key
  | _, _ => none

/-- JavaScript truthiness of a (non-`undefined`) value. -/
def jsTruthy : JsonVal → Bool
  | .null => false
  | .bool b => b
  | .num n => !(n == 0)
  | .str s => !(s == "")
  | .obj _ => true
  | .arr _ => true

def isWsChar (c : Char) : Bool := c.isWhitespace

def trimWs (cs : List Char) : List Char :=
  ((cs.dropWhile isWsChar).reverse.dropWhile isWsChar).reverse

def allDigits (cs : List Char) : Bool := !cs.isEmpty && cs.all Char.isDigit

def digitsToNat (cs : List Char) : Nat :=
  cs.foldl (fun a c => a * 10 + (c.toNat - 48)) 0

/-- JavaScript `Number(s)` restricted to integer numerals: the trimmed empty
string is `0`, an optionally signed digit string is its value, and anything
else is modelled as `NaN` (`none`).  (Fractional, hexadecimal and
`Infinity` numerals also coerce in JavaScript; they cannot arise from the
integer timestamps this SDK stores and are modelled as `NaN`.) -/
def jsStrToNumber (cs : List Char) : Option Int :=
  let t := trimWs cs
  match t with
  | [] => some 0
  | '-' :: rest => if allDigits rest then some (-(digitsToNat rest : Int)) else none
  | '+' :: rest => if allDigits rest then some ((digitsToNat rest : Int)) else none
  | _ => if allDigits t then some ((digitsToNat t : Int)) else none

/-- JavaScript `ToNumber` on a parsed JSON value (`none` = `NaN`).
A singleton array coerces through its element (`Number([x])` goes through
`String(x)`; exact for the numeric payloads modelled here). -/
def jsToNumber : JsonVal → Option Int
  | .null => some 0
  | .bool b => some (if b then 1 else 0)
  | .num n => some n
  | .str s => jsStrToNumber s.toList
  | .obj _ => none
  | .arr [] => some 0
  | .arr [x] => jsToNumber x
  | .arr (_ :: _ :: _) => none

/-- The JavaScript comparison `now < v` for a number `now` and an arbitrary
value `v` (possibly `undefined`); a `NaN` operand makes it false. -/
def jsLtNum (now : Int) (v : Option JsonVal) : Bool :=
  match v with
  | none => false
  | some j =>
    match jsToNumber j with
    | none => false
    | some m => decide (now < m)

/-- A persisted `localStorage` cell: a string that parses as JSON, or a
string on which `JSON.parse` throws (legacy / corrupted data). -/
inductive StorageCell where
  | json (j : JsonVal)
  | raw (s : String)
deriving Repr

abbrev LocalStorage := List (String × StorageCell)

def getItem : LocalStorage → String → Option StorageCell
  | [], _ => none
  | (k, v) :: rest, key => if k = key then some v else getItem rest key

def removeItem : LocalStorage → String → LocalStorage
  | [], _ => []
  | (k, v) :: rest, key =>
    if k = key then removeItem rest key else (k, v) :: removeItem rest key

def setItem (store : LocalStorage) (key : String) (v : StorageCell) : LocalStorage :=
  (key, v) :: removeItem store key

/-- The browser environment a call runs in: which globals exist, whether
the individual `localStorage` accesses throw (privacy mode, quota), and the
values of `navigator.userAgent` and `document.referrer`. -/
structure Env where
  hasWindow : Bool
  hasLocalStorage : Bool
  hasNavigator : Bool
  hasDocument : Bool
  getThrows : Bool
  setThrows : Bool
  removeThrows : Bool
  userAgent : String
  referrer : String
deriving Repr

/-- `getReferrer`: `document.referrer || null`, `null` outside a browser. -/
def getReferrer (env : Env) : JsonVal :=
  if !env.hasDocument then .null
  else if env.referrer = "" then .null
  else .str env.referrer

/-- `getUserAgent`: `navigator.userAgent || null`, `null` without `navigator`. -/
def getUserAgent (env : Env) : JsonVal :=
  if !env.hasNavigator then .null
  else if env.userAgent = "" then .null
  else .str env.userAgent

/-! ### User-agent classification (`getDeviceType`)

The source tests two regular expressions against the lowercased user
agent.  Alternation under `RegExp.test` is "some alternative matches at
some position", which the helpers below implement directly over character
lists.  `.` is modelled as matching any character (user-agent strings
contain no newline) and `\s` as a whitespace character. -/

/-- Does `pat` occur at the start of `s`? -/
def startsWith : List Char → List Char → Bool
  | [], _ => true
  | _ :: _, [] => false
  | p :: ps, c :: cs => (p = c) && startsWith ps cs

/-- Does `pat` occur somewhere in `s`? -/
def containsSeq (pat : List Char) : List Char → Bool
  | [] => startsWith pat []
  | c :: rest => startsWith pat (c :: rest) || containsSeq pat rest

/-- `lit(?!.*neg)`: some occurrence of `lit` is not followed, anywhere in
the remainder, by `neg`. -/
def occursNFB (lit neg : List Char) : List Char → Bool
  | [] => startsWith lit [] && !(containsSeq neg [])
  | c :: rest =>
    (startsWith lit (c :: rest) && !(containsSeq neg ((c :: rest).drop lit.length)))
      || occursNFB lit neg rest

/-- `lit(?!.*neg)(.*pos)`: some occurrence of `lit` is not followed by
`neg` but is followed by `pos`. -/
def occursNFBPos (lit neg pos : List Char) : List Char → Bool
  | [] => startsWith lit [] && !(containsSeq neg []) && containsSeq pos []
  | c :: rest =>
    (startsWith lit (c :: rest) && !(containsSeq neg ((c :: rest).drop lit.length))
      && containsSeq pos ((c :: rest).drop lit.length))
      || occursNFBPos lit neg pos rest

/-- `lit(?!.*(n₁|n₂|…))`: some occurrence of `lit` is followed by none of
the `negs`. -/
def occursNFBAny (lit : List Char) (negs : List (List Char)) : List Char → Bool
  | [] => startsWith lit [] && !(negs.any (fun n => containsSeq n []))
  | c :: rest =>
    (startsWith lit (c :: rest)
      && !(negs.any (fun n => containsSeq n ((c :: rest).drop lit.length))))
      || occursNFBAny lit negs rest

/-- A single token of the literal-ish patterns: a fixed character, `.`
(any character), or `\s` (whitespace). -/
inductive Tok where
  | ch (c : Char)
  | anyCh
  | ws

def tokMatches : Tok → Char → Bool
  | .ch c, c' => c = c'
  | .anyCh, _ => true
  | .ws, c => c.isWhitespace

def toksAt : List Tok → List Char → Bool
  | [], _ => true
  | _ :: _, [] => false
  | t :: ts, c :: cs => tokMatches t c && toksAt ts cs

def toksSomewhere (p : List Tok) : List Char → Bool
  | [] => toksAt p []
  | c :: rest => toksAt p (c :: rest) || toksSomewhere p rest

def chToks (s : String) : List Tok := s.toList.map Tok.ch

/-- `windows\sce` -/
def winCeToks : List Tok := chToks "windows" ++ [Tok.ws] ++ chToks "ce"

/-- `android 3.0` (the `.` is the any-character metacharacter) -/
def android30Toks : List Tok := chToks "android 3" ++ [Tok.anyCh] ++ chToks "0"

/-- The tablet regular expression
`(ipad|tablet|(android(?!.*mobile))|(windows(?!.*phone)(.*touch))|kindle|playbook|silk|(puffin(?!.*(IP|AP|WP))))`
tested against the lowercased user agent.  (The uppercase `IP|AP|WP`
alternatives of the lookahead can never occur in a lowercased string, but
are carried over verbatim.) -/
def tabletMatch (s : List Char) : Bool :=
  containsSeq "ipad".toList s
    || containsSeq "tablet".toList s
    || occursNFB "android".toList "mobile".toList s
    || occursNFBPos "windows".toList "phone".toList "touch".toList s
    || containsSeq "kindle".toList s
    || containsSeq "playbook".toList s
    || containsSeq "silk".toList s
    || occursNFBAny "puffin".toList ["IP".toList, "AP".toList, "WP".toList] s

/-- The mobile regular expression
`mobile|iphone|ipod|android|blackberry|opera|mini|windows\sce|palm|smartphone|iemobile|ipad|android|android 3.0|xoom|sch-i800|playbook|tablet|kindle`
tested against the lowercased user agent. -/
def mobileMatch (s : List Char) : Bool :=
  containsSeq "mobile".toList s
    || containsSeq "iphone".toList s
    || containsSeq "ipod".toList s
    || containsSeq "android".toList s
    || containsSeq "blackberry".toList s
    || containsSeq "opera".toList s
    || containsSeq "mini".toList s
    || toksSomewhere winCeToks s
    || containsSeq "palm".toList s
    || containsSeq "smartphone".toList s
    || containsSeq "iemobile".toList s
    || containsSeq "ipad".toList s
    || containsSeq "android".toList s
    || toksSomewhere android30Toks s
    || containsSeq "xoom".toList s
    || containsSeq "sch-i800".toList s
    || containsSeq "playbook".toList s
    || containsSeq "tablet".toList s
    || containsSeq "kindle".toList s

/-- The classification core of `getDeviceType`: lowercase the user agent,
test the tablet pattern, then the mobile pattern, else desktop. -/
def classifyUA (ua : String) : String :=
  let s := ua.toList.map Char.toLower
  if tabletMatch s then "tablet"
  else if mobileMatch s then "mobile"
  else "desktop"

/-- `getDeviceType`: `null` without `window`/`navigator`, otherwise the
classification of `navigator.userAgent`. -/
def getDeviceType (env : Env) : JsonVal :=
  if !env.hasWindow || !env.hasNavigator then .null
  else .str (classifyUA env.userAgent)

/-! ### Device identity store (`getOrCreateDeviceId`) -/

def DEVICE_ID_KEY : String := "lanorx_device_id"
def EMAIL_SUBMITTED_KEY : String := "lanorx_email_submitted"

/-- 30 minutes in milliseconds. -/
def DEVICE_ID_TTL : Int := 30 * 60 * 1000

/-- The record `JSON.stringify`-ed into storage for a fresh identifier. -/
def newDeviceRecord (fresh : String) (now : Int) : JsonVal :=
  .obj [("deviceId", .str fresh), ("expiresAt", .num (now + DEVICE_ID_TTL))]

/-- The generation tail of `getOrCreateDeviceId`: store the new record and
return the fresh identifier; a throwing `setItem` is caught by the outer
handler, which returns `null` (the store is left as it was). -/
def writeNewDeviceId (env : Env) (store : LocalStorage) (now : Int) (fresh : String) :
    Option JsonVal × LocalStorage :=
  if env.setThrows then (some .null, store)
  else (some (.str fresh), setItem store DEVICE_ID_KEY (.json (newDeviceRecord fresh now)))

/-- `getOrCreateDeviceId`.  Returns the JavaScript value the function
returns (`some .null` = `null`, `none` = `undefined`) together with the
storage state afterwards.  `now` is `Date.now()`; `fresh` is the
identifier `generateDeviceId()` would produce on this call.

Branches, mirroring the source: outside a browser return `null`; a
throwing storage access is caught by the outer handler and yields `null`;
a falsy stored string (absent, or empty) falls through to generation; a
stored string on which `JSON.parse` throws — the legacy plain-string
format — hits the inner catch, which removes the key and falls through to
generation; a parsed `null` makes the unvalidated `parsed.expiresAt`
property access throw, which the inner catch treats the same way; any
other parsed value is compared via `Date.now() < parsed.expiresAt` and,
when unexpired, `parsed.deviceId` is returned without any structural
validation. -/
def getOrCreateDeviceId (env : Env) (store : LocalStorage) (now : Int) (fresh : String) :
    Option JsonVal × LocalStorage :=
  if !env.hasWindow || !env.hasLocalStorage then (some .null, store)
  else if env.getThrows then (some .null, store)
  else
    match getItem store DEVICE_ID_KEY with
    | none => writeNewDeviceId env store now fresh
    | some (.raw s) =>
      if s = "" then writeNewDeviceId env store now fresh
      else if env.removeThrows then (some .null, store)
      else writeNewDeviceId env (removeItem store DEVICE_ID_KEY) now fresh
    | some (.json j) =>
      match j with
      | .null =>
        if env.removeThrows then (some .null, store)
        else writeNewDeviceId env (removeItem store DEVICE_ID_KEY) now fresh
      | j =>
        if jsLtNum now (jsField j "expiresAt") then (jsField j "deviceId", store)
        else if env.removeThrows then (some .null, store)
        else writeNewDeviceId env (removeItem store DEVICE_ID_KEY) now fresh

/-! ### Email submission storage -/

/-- The per-project storage key `lanorx_email_submitted_{projectId}`. -/
def emailKey (projectId : String) : String :=
  EMAIL_SUBMITTED_KEY ++ "_" ++ projectId

/-- The default value `{ submitted: false }`. -/
def notSubmitted : JsonVal := .obj [("submitted", .bool false)]

/-- `getEmailSubmissionData`: the parsed stored value, or
`{ submitted: false }` outside a browser, on a throwing or falsy read,
or when `JSON.parse` throws (the warning is logged and execution falls
through to the default return). -/
def getEmailSubmissionData (env : Env) (store : LocalStorage) (projectId : String) : JsonVal :=
  if !env.hasWindow || !env.hasLocalStorage then notSubmitted
  else if env.getThrows then notSubmitted
  else
    match getItem store (emailKey projectId) with
    | some (.json j) => j
    | some (.raw _) => notSubmitted
    | none => notSubmitted

/-- The record `saveEmailSubmission` stringifies into storage. -/
def submissionRecord (email nowIso : String) : JsonVal :=
  .obj [("submitted", .bool true), ("email", .str email), ("submittedAt", .str nowIso)]

/-- `saveEmailSubmission`: write the record keyed by project id; outside a
browser, or when the write throws, the store is left unchanged (the error
is swallowed). -/
def saveEmailSubmission (env : Env) (store : LocalStorage) (projectId email nowIso : String) :
    LocalStorage :=
  if !env.hasWindow || !env.hasLocalStorage then store
  else if env.setThrows then store
  else setItem store (emailKey projectId) (.json (submissionRecord email nowIso))

/-! ### Client construction -/

/-- `LanorxConfig`.  The required string fields use `""` to cover both the
empty string and an absent (`undefined`) value: the source guards with the
JavaScript falsiness tests `!this.config.projectId` / `!this.config.apiKey`,
which identify exactly those two cases for a declared-string field. -/
structure LanorxConfig where
  projectId : String
  apiKey : String
  apiUrl : Option String := none

/-- The constructed client: the merged configuration plus the device
identifier captured once at construction (a JavaScript value:
`some .null` = `null`, `none` = `undefined`). -/
structure Client where
  projectId : String
  apiKey : String
  apiUrl : String
  deviceId : Option JsonVal

/-- The `LanorxClient` constructor: merge the `apiUrl` default, fail fast
on a missing/empty `projectId` or `apiKey`, then resolve the device
identifier once.  The thrown construction errors are the `.error` cases;
they occur before any storage access, which is why they do not depend on
`store`. -/
def mkClient (cfg : LanorxConfig) (env : Env) (store : LocalStorage) (now : Int)
    (fresh : String) : Except String (Client × LocalStorage) :=
  let apiUrl := cfg.apiUrl.getD "https://www.lanorx.com"
  if cfg.projectId = "" then .error "projectId is required"
  else if cfg.apiKey = "" then .error "apiKey is required"
  else
    let r := getOrCreateDeviceId env store now fresh
    .ok (⟨cfg.projectId, cfg.apiKey, apiUrl, r.1⟩, r.2)

/-- `hasSubmittedEmail()`: a pure read delegating to
`getEmailSubmissionData` for the client's project. -/
def hasSubmittedEmail (c : Client) (env : Env) (store : LocalStorage) : JsonVal :=
  getEmailSubmissionData env store c.projectId

/-! ### HTTP operations -/

/-- The outcome of `await fetch(...)` followed by `await response.json()`:

* `netError m` — `fetch` rejected (network failure); `m` is the `Error`'s
  message, `none` when a non-`Error` value was thrown;
* `jsonError ok status m` — a response arrived but `response.json()`
  rejected (unparsable body);
* `jsonOk ok status body` — a response arrived and its body parsed to
  `body`. -/
inductive FetchOutcome where
  | netError (msg : Option String)
  | jsonError (ok : Bool) (status : Nat) (msg : Option String)
  | jsonOk (ok : Bool) (status : Nat) (body : JsonVal)

/-- `error instanceof Error ? error.message : "Unknown error"`. -/
def errMessage (m : Option String) : String := m.getD "Unknown error"

/-- The message of the `TypeError` thrown by reading a property of `null`
(the exact wording is engine-specific; only its existence matters). -/
def nullReadError (field : String) : String :=
  "Cannot read properties of null, reading " ++ field

/-- `data.error || `HTTP ${response.status}``: the body's `error` field
when it is present and JavaScript-truthy, else the fallback string. -/
def jsOrHttp (e : Option JsonVal) (status : Nat) : JsonVal :=
  match e with
  | some v => if jsTruthy v then v else .str ("HTTP " ++ toString status)
  | none => .str ("HTTP " ++ toString status)

/-- The result envelope `{success, data?, error?}`.  `error` is the
JavaScript value placed in the envelope (the source's `data.error` need
not be a string). -/
structure ApiResult where
  success : Bool
  data : Option JsonVal := none
  error : Option JsonVal := none

/-- The single POST request a call hands to `fetch`: URL, the
`Authorization` header value, and the body after `JSON.stringify` (fields
whose value is `undefined` are dropped by `JSON.stringify`). -/
structure Request where
  url : String
  authHeader : String
  body : List (String × JsonVal)

/-- What one public call did: the request it issued, the envelope it
returned, and the storage state it left behind. -/
structure CallResult where
  request : Request
  result : ApiResult
  store : LocalStorage

/-- `JSON.stringify` field filtering: `undefined`-valued fields disappear. -/
def dropUndef (fields : List (String × Option JsonVal)) : List (String × JsonVal) :=
  fields.filterMap (fun p => p.2.map (fun v => (p.1, v)))

/-- The `submitEmail` POST body, in source order. -/
def submitEmailBody (c : Client) (env : Env) (email : String) : List (String × JsonVal) :=
  dropUndef
    [("email", some (.str email)),
     ("deviceId", c.deviceId),
     ("deviceType", some (getDeviceType env)),
     ("referrer", some (getReferrer env)),
     ("userAgent", some (getUserAgent env))]

/-- `submitEmail`.  `nowIso` is `new Date().toISOString()` at save time.

On a thrown fetch/parse the catch returns the failure envelope; on a
non-2xx response the envelope carries `data.error || "HTTP {status}"`,
except that a JSON-`null` body makes `data.error` itself throw, which the
catch converts to the `TypeError` message.  On a 2xx response the
submission is saved **first** and `data.data` is read afterwards — for a
JSON-`null` body that read throws after the save, so the call returns a
failure envelope while the store is already mutated. -/
def submitEmail (c : Client) (env : Env) (store : LocalStorage) (email : String)
    (outcome : FetchOutcome) (nowIso : String) : CallResult :=
  let req : Request :=
    ⟨c.apiUrl ++ "/api/v1/projects/" ++ c.projectId ++ "/emails",
     "Bearer " ++ c.apiKey, submitEmailBody c env email⟩
  match outcome with
  | .netError m => ⟨req, ⟨false, none, some (.str (errMessage m))⟩, store⟩
  | .jsonError _ _ m => ⟨req, ⟨false, none, some (.str (errMessage m))⟩, store⟩
  | .jsonOk ok status body =>
    if !ok then
      match body with
      | .null => ⟨req, ⟨false, none, some (.str (nullReadError "error"))⟩, store⟩
      | b => ⟨req, ⟨false, none, some (jsOrHttp (jsField b "error") status)⟩, store⟩
    else
      let store2 := saveEmailSubmission env store c.projectId email nowIso
      match body with
      | .null => ⟨req, ⟨false, none, some (.str (nullReadError "data"))⟩, store2⟩
      | b => ⟨req, ⟨true, jsField b "data", none⟩, store2⟩

/-- `EventTrackOptions`: `type` is the event-type string; `contentId` and
`meta` are optional (`none` = absent/`undefined`). -/
structure EventTrackOptions where
  type : String
  contentId : Option String := none
  meta : Option JsonVal := none

/-- The `trackEvent` POST body, in source order. -/
def trackEventBody (c : Client) (env : Env) (opts : EventTrackOptions) :
    List (String × JsonVal) :=
  dropUndef
    [("type", some (.str opts.type)),
     ("contentId", opts.contentId.map JsonVal.str),
     ("deviceId", c.deviceId),
     ("deviceType", some (getDeviceType env)),
     ("referrer", some (getReferrer env)),
     ("userAgent", some (getUserAgent env)),
     ("meta", opts.meta)]

/-- `trackEvent`: same request/response discipline as `submitEmail`, with
no storage write on any path. -/
def trackEvent (c : Client) (env : Env) (store : LocalStorage) (opts : EventTrackOptions)
    (outcome : FetchOutcome) : CallResult :=
  let req : Request :=
    ⟨c.apiUrl ++ "/api/v1/projects/" ++ c.projectId ++ "/events",
     "Bearer " ++ c.apiKey, trackEventBody c env opts⟩
  match outcome with
  | .netError m => ⟨req, ⟨false, none, some (.str (errMessage m))⟩, store⟩
  | .jsonError _ _ m => ⟨req, ⟨false, none, some (.str (errMessage m))⟩, store⟩
  | .jsonOk ok status body =>
    if !ok then
      match body with
      | .null => ⟨req, ⟨false, none, some (.str (nullReadError "error"))⟩, store⟩
      | b => ⟨req, ⟨false, none, some (jsOrHttp (jsField b "error") status)⟩, store⟩
    else
      match body with
      | .null => ⟨req, ⟨false, none, some (.str (nullReadError "data"))⟩, store⟩
      | b => ⟨req, ⟨true, jsField b "data", none⟩, store⟩

/-- `trackPageView(contentId?)`: exactly
`trackEvent({type: "VIEW", contentId})` — no `meta` is passed. -/
def trackPageView (c : Client) (env : Env) (store : LocalStorage)
    (contentId : Option String) (outcome : FetchOutcome) : CallResult :=
  trackEvent c env store ⟨"VIEW", contentId, none⟩ outcome

/-! ### Traces of SDK operations (for the storage-lifetime invariant) -/

/-- One public SDK operation together with the ambient nondeterminism it
consumed (transport outcome, clock, fresh identifier). -/
inductive SdkOp where
  | submit (email : String) (outcome : FetchOutcome) (nowIso : String)
  | track (opts : EventTrackOptions) (outcome : FetchOutcome)
  | check
  | resolve (now : Int) (fresh : String)

/-- The storage state after running one operation. -/
def runOp (c : Client) (env : Env) (store : LocalStorage) : SdkOp → LocalStorage
  | .submit email outcome nowIso => (submitEmail c env store email outcome nowIso).store
  | .track opts outcome => (trackEvent c env store opts outcome).store
  | .check => store
  | .resolve now fresh => (getOrCreateDeviceId env store now fresh).2

/-- The storage state after a whole trace of operations. -/
def runOps (c : Client) (env : Env) (store : LocalStorage) : List SdkOp → LocalStorage
  | [] => store
  | op :: rest => runOps c env (runOp c env store op) rest

/-- Does an operation receive a 2xx (`response.ok`) answer to a
`submitEmail`?  Exactly these operations create the submission record. -/
def opCreatesRecord : SdkOp → Bool
  | .submit _ (.jsonOk true _ _) _ => true
  | _ => false

/-! ### Concrete fixtures used by the closed evaluations -/

/-- Is an `Except` value a success? -/
def exceptOk {ε α : Type} : Except ε α → Bool
  | .ok _ => true
  | .error _ => false

/-- A fully available browser environment with a non-empty referrer. -/
def envB : Env :=
  ⟨true, true, true, true, false, false, false,
   "Mozilla/5.0 (X11; Linux x86_64)", "https://example.com/"⟩

/-- A constructed client whose device identifier resolved to a string. -/
def clientA : Client :=
  ⟨"proj_123", "lnx_sk_key", "https://www.lanorx.com", some (.str "dev-1")⟩

/-- A well-formed stored device record: identifier `"abc"`, expiry `2000`. -/
def storeDev : LocalStorage :=
  [(DEVICE_ID_KEY, .json (.obj [("deviceId", .str "abc"), ("expiresAt", .num 2000)]))]

/-- An execution context without `localStorage` (e.g. server-side
rendering), where device-identity resolution yields `null`. -/
def envNoStore : Env :=
  ⟨true, false, true, true, false, false, false,
   "Mozilla/5.0 (X11; Linux x86_64)", ""⟩

/-! ### Storage lemmas -/

theorem getItem_setItem_self (s : LocalStorage) (k : String) (v : StorageCell) :
    getItem (setItem s k v) k = some v := by
  simp [setItem, getItem]

theorem getItem_removeItem_ne (s : LocalStorage) (k k' : String) (h : k' ≠ k) :
    getItem (removeItem s k) k' = getItem s k' := by
  have hkk : ¬(k = k') := fun hh => h hh.symm
  induction s with
  | nil => rfl
  | cons p rest ih =>
    rcases p with ⟨pk, pv⟩
    by_cases hpk : pk = k
    · simp [removeItem, getItem, hpk, hkk, ih]
    · by_cases hk' : pk = k'
      · simp [removeItem, getItem, hpk, hk', h]
      · simp [removeItem, getItem, hpk, hk', ih]

theorem getItem_setItem_ne (s : LocalStorage) (k k' : String) (v : StorageCell)
    (h : k' ≠ k) : getItem (setItem s k v) k' = getItem s k' := by
  have hne : k ≠ k' := fun hh => h hh.symm
  simp [setItem, getItem, hne, getItem_removeItem_ne s k k' h]

theorem writeNewDeviceId_other_key (env : Env) (st : LocalStorage) (now : Int)
    (fresh : String) (k : String) (h : k ≠ DEVICE_ID_KEY) :
    getItem (writeNewDeviceId env st now fresh).2 k = getItem st k := by
  unfold writeNewDeviceId
  by_cases hs : env.setThrows = true
  · simp [hs]
  · simp only [Bool.not_eq_true] at hs
    simp [hs, getItem_setItem_ne _ _ _ _ h]

theorem getOrCreateDeviceId_other_key (env : Env) (st : LocalStorage) (now : Int)
    (fresh : String) (k : String) (h : k ≠ DEVICE_ID_KEY) :
    getItem (getOrCreateDeviceId env st now fresh).2 k = getItem st k := by
  have hw : ∀ st2 : LocalStorage,
      getItem (writeNewDeviceId env st2 now fresh).2 k = getItem st2 k := by
    intro st2
    unfold writeNewDeviceId
    split
    · rfl
    · exact getItem_setItem_ne st2 DEVICE_ID_KEY k _ h
  unfold getOrCreateDeviceId
  split
  · rfl
  split
  · rfl
  rcases hcell : getItem st DEVICE_ID_KEY with _ | cell
  · simpa using hw st
  rcases cell with j | s
  · rcases j with _ | b | n | s | fs | es <;>
      simp only [] <;>
      (repeat' split) <;>
      first
        | rfl
        | (rw [hw]; try rw [getItem_removeItem_ne _ _ _ h])
  · simp only []
    repeat' split
    all_goals first
      | rfl
      | (rw [hw]; try rw [getItem_removeItem_ne _ _ _ h])

theorem emailKey_ne_deviceKey (projectId : String) : emailKey projectId ≠ DEVICE_ID_KEY := by
  intro hh
  have hlen := congrArg String.length hh
  rw [emailKey, EMAIL_SUBMITTED_KEY, DEVICE_ID_KEY, String.length_append,
    String.length_append] at hlen
  have h1 : ("lanorx_email_submitted" : String).length = 22 := rfl
  have h2 : ("_" : String).length = 1 := rfl
  have h3 : ("lanorx_device_id" : String).length = 16 := rfl
  rw [h1, h2, h3] at hlen
  omega

/-- `trackEvent` writes nothing on any path. -/
theorem trackEvent_store (c : Client) (env : Env) (store : LocalStorage)
    (opts : EventTrackOptions) (outcome : FetchOutcome) :
    (trackEvent c env store opts outcome).store = store := by
  rcases outcome with m | ⟨ok, status, m⟩ | ⟨ok, status, body⟩
  · rfl
  · rfl
  · rcases ok <;> rcases body <;> rfl

/-- `submitEmail` leaves the store alone unless the response was 2xx. -/
theorem submitEmail_store_of_not_ok (c : Client) (env : Env) (store : LocalStorage)
    (email nowIso : String) :
    (∀ m, (submitEmail c env store email (.netError m) nowIso).store = store) ∧
    (∀ ok status m, (submitEmail c env store email (.jsonError ok status m) nowIso).store = store) ∧
    (∀ status body, (submitEmail c env store email (.jsonOk false status body) nowIso).store = store) := by
  refine ⟨fun m => rfl, fun ok status m => rfl, fun status body => ?_⟩
  rcases body <;> rfl

/-- On a 2xx response, `submitEmail` stores via `saveEmailSubmission`
regardless of the body (the save precedes the `data.data` read). -/
theorem submitEmail_store_of_ok (c : Client) (env : Env) (store : LocalStorage)
    (email nowIso : String) (status : Nat) (body : JsonVal) :
    (submitEmail c env store email (.jsonOk true status body) nowIso).store =
      saveEmailSubmission env store c.projectId email nowIso := by
  rcases body <;> rfl

/-- Presence of the submission cell after a trace: it is there exactly when
it was already there or some operation received a 2xx `submitEmail`
response.  Requires working storage. -/
theorem runOps_email_cell (c : Client) (env : Env)
    (hW : env.hasWindow = true) (hLS : env.hasLocalStorage = true)
    (hS : env.setThrows = false) :
    ∀ (ops : List SdkOp) (store : LocalStorage),
      (getItem (runOps c env store ops) (emailKey c.projectId)).isSome =
        ((getItem store (emailKey c.projectId)).isSome || ops.any opCreatesRecord) := by
  intro ops
  induction ops with
  | nil => intro store; simp [runOps]
  | cons op rest ih =>
    intro store
    rcases op with ⟨email, outcome, nowIso⟩ | ⟨opts, outcome⟩ | _ | ⟨now, fresh⟩
    · rcases outcome with m | ⟨ok, status, m⟩ | ⟨ok, status, body⟩
      · simp [runOps, runOp, (submitEmail_store_of_not_ok c env store email nowIso).1 m, ih,
          opCreatesRecord, List.any_cons]
      · simp [runOps, runOp, (submitEmail_store_of_not_ok c env store email nowIso).2.1 ok status m,
          ih, opCreatesRecord, List.any_cons]
      · rcases ok
        · simp [runOps, runOp,
            (submitEmail_store_of_not_ok c env store email nowIso).2.2 status body, ih,
            opCreatesRecord, List.any_cons]
        · rw [runOps, runOp, submitEmail_store_of_ok c env store email nowIso status body]
          rw [saveEmailSubmission, if_neg (by simp [hW, hLS]), if_neg (by simp [hS])]
          rw [ih]
          simp [getItem_setItem_self, opCreatesRecord, List.any_cons]
    · simp [runOps, runOp, trackEvent_store, ih, opCreatesRecord, List.any_cons]
    · simp [runOps, runOp, ih, opCreatesRecord, List.any_cons]
    · rw [runOps, runOp]
      rw [ih]
      rw [getOrCreateDeviceId_other_key env store now fresh _ (emailKey_ne_deviceKey c.projectId)]
      simp [opCreatesRecord, List.any_cons]

theorem startsWith_map (f : Char → Char) :
    ∀ (p s : List Char), startsWith p s = true →
      startsWith (p.map f) (s.map f) = true := by
  intro p
  induction p with
  | nil => intro s _; rfl
  | cons x ps ih =>
    intro s hps
    rcases s with _ | ⟨c, cs⟩
    · exact absurd hps (by simp [startsWith])
    · rw [startsWith, Bool.and_eq_true] at hps
      have hx : x = c := by simpa using hps.1
      simp only [List.map, startsWith, Bool.and_eq_true]
      exact ⟨by simp [hx], ih cs hps.2⟩

theorem containsSeq_map (f : Char → Char) :
    ∀ (s p : List Char), containsSeq p s = true →
      containsSeq (p.map f) (s.map f) = true := by
  intro s
  induction s with
  | nil =>
    intro p hp
    rw [containsSeq] at hp
    simpa [containsSeq] using startsWith_map f p [] hp
  | cons c cs ih =>
    intro p hp
    rw [containsSeq, Bool.or_eq_true] at hp
    rcases hp with hp | hp
    · have := startsWith_map f p (c :: cs) hp
      simp only [List.map, containsSeq, Bool.or_eq_true]
      exact Or.inl (by simpa using this)
    · simp only [List.map, containsSeq, Bool.or_eq_true]
      exact Or.inr (ih p hp)

/-- C7: a user agent containing `"iPad"` classifies as `tablet`, not
`mobile` (the tablet pattern is tested first and already matches on the
lowercased `"ipad"` substring), and every user agent is classified into
exactly one of tablet, mobile and desktop. -/
theorem c7_ipad_is_tablet (ua : String)
    (h : containsSeq "iPad".toList ua.toList = true) :
    classifyUA ua = "tablet" ∧ classifyUA ua ≠ "mobile" ∧
      ∀ v : String,
        classifyUA v = "tablet" ∨ classifyUA v = "mobile" ∨ classifyUA v = "desktop" := by
  have h2 : containsSeq ("iPad".toList.map Char.toLower) (ua.toList.map Char.toLower) = true :=
    containsSeq_map Char.toLower ua.toList "iPad".toList h
  have h3 : "iPad".toList.map Char.toLower = "ipad".toList := by decide
  rw [h3] at h2
  have ht : tabletMatch (List.map Char.toLower ua.data) = true := by
    have h4 : containsSeq "ipad".toList (List.map Char.toLower ua.data) = true := h2
    rw [tabletMatch, h4]
    simp
  have hc : classifyUA ua = "tablet" := by
    simp [classifyUA, String.toList, ht]
  refine ⟨hc, by rw [hc]; simp, ?_⟩
  intro v
  by_cases h1 : tabletMatch (List.map Char.toLower v.data) = true
  · left; simp [classifyUA, String.toList, h1]
  · by_cases hm : mobileMatch (List.map Char.toLower v.data) = true
    · right; left; simp [classifyUA, String.toList, h1, hm]
    · right; right; simp [classifyUA, String.toList, h1, hm]

/-- Witness for C7 at the concrete user agent
`"Mozilla/5.0 (iPad; CPU OS 13_3)"`. -/
theorem c7_ipad_is_tablet_witness :
    containsSeq "iPad".toList "Mozilla/5.0 (iPad; CPU OS 13_3)".toList = true ∧
      classifyUA "Mozilla/5.0 (iPad; CPU OS 13_3)" = "tablet" :=
  ⟨rfl, (c7_ipad_is_tablet "Mozilla/5.0 (iPad; CPU OS 13_3)" rfl).1⟩

/-- C1 counterexample: with a browser exposing the non-empty referrer
`"https://example.com/"`, the body of the request issued by
`trackPageView` contains no `meta` field at all — the referrer travels as
a top-level body field instead — contradicting the claim that the request
carries `meta: {referrer}` whenever a non-empty referrer is exposed. -/
theorem c1_meta_counterexample :
    getReferrer envB = .str "https://example.com/" ∧
    lookupPairs (trackPageView clientA envB [] (some "home") (.netError none)).request.body
      "meta" = none ∧
    lookupPairs (trackPageView clientA envB [] (some "home") (.netError none)).request.body
      "referrer" = some (.str "https://example.com/") :=
  ⟨rfl, rfl, rfl⟩

/-- C1 (amended): `trackPageView(contentId)` issues exactly the request of
`trackEvent({type: "VIEW", contentId})` with no `meta`; the referrer is a
top-level body field, equal to `document.referrer` when the browser
exposes a non-empty value and `null` exactly otherwise. -/
theorem c1_page_view_request (c : Client) (env : Env) (store : LocalStorage)
    (cid : Option String) (outcome : FetchOutcome) :
    trackPageView c env store cid outcome =
        trackEvent c env store ⟨"VIEW", cid, none⟩ outcome ∧
      lookupPairs (trackPageView c env store cid outcome).request.body "meta" = none ∧
      lookupPairs (trackPageView c env store cid outcome).request.body "referrer" =
        some (getReferrer env) ∧
      (getReferrer env = .null ↔ (env.hasDocument = false ∨ env.referrer = "")) := by
  have hreq : (trackPageView c env store cid outcome).request =
      ⟨c.apiUrl ++ "/api/v1/projects/" ++ c.projectId ++ "/events",
       "Bearer " ++ c.apiKey, trackEventBody c env ⟨"VIEW", cid, none⟩⟩ := by
    rcases outcome with m | ⟨ok, status, m⟩ | ⟨ok, status, body⟩
    · rfl
    · rfl
    · rcases ok <;> rcases body <;> rfl
  refine ⟨rfl, ?_, ?_, ?_⟩
  · rw [hreq]
    rcases cid with _ | s <;> rcases hd : c.deviceId with _ | d <;>
      simp [trackEventBody, dropUndef, lookupPairs, hd]
  · rw [hreq]
    rcases cid with _ | s <;> rcases hd : c.deviceId with _ | d <;>
      simp [trackEventBody, dropUndef, lookupPairs, hd]
  · rcases hdoc : env.hasDocument <;> by_cases hr : env.referrer = "" <;>
      simp [getReferrer, hdoc, hr]

/-- C2 counterexample: the server-supplied error string `""` is present
in the response body, yet the envelope carries the fallback `"HTTP 500"`
instead — the source tests JavaScript truthiness, not presence. -/
theorem c2_empty_error_counterexample :
    lookupPairs [("error", JsonVal.str "")] "error" = some (.str "") ∧
      (submitEmail clientA envB [] "user@example.com"
        (.jsonOk false 500 (.obj [("error", .str "")])) "iso").result.error =
        some (.str "HTTP 500") ∧
      (JsonVal.str "HTTP 500") ≠ (JsonVal.str "") :=
  ⟨rfl, rfl, by simp⟩

/-- C2 (amended): on a non-2xx response `submitEmail` and `trackEvent`
return `{success: false}` with the server-supplied error value when it is
present and non-empty (JavaScript-truthy), and the fallback
`"HTTP {status}"` when the `error` field is absent; on a network or
body-parse exception they return `{success: false, error: <message>}`
(`"Unknown error"` for a non-`Error` throwable).  The never-throws
discipline is the totality of the embedding: every transport outcome is
mapped to a result envelope. -/
theorem c2_failure_envelope (c : Client) (env : Env) (store : LocalStorage)
    (email nowIso : String) (opts : EventTrackOptions) :
    (∀ (status : Nat) (fields : List (String × JsonVal)) (e : String),
      lookupPairs fields "error" = some (.str e) → e ≠ "" →
      (submitEmail c env store email (.jsonOk false status (.obj fields)) nowIso).result =
        ⟨false, none, some (.str e)⟩) ∧
    (∀ (status : Nat) (fields : List (String × JsonVal)),
      lookupPairs fields "error" = none →
      (submitEmail c env store email (.jsonOk false status (.obj fields)) nowIso).result =
        ⟨false, none, some (.str ("HTTP " ++ toString status))⟩) ∧
    (∀ m, (submitEmail c env store email (.netError m) nowIso).result =
      ⟨false, none, some (.str (errMessage m))⟩) ∧
    (∀ ok status m, (submitEmail c env store email (.jsonError ok status m) nowIso).result =
      ⟨false, none, some (.str (errMessage m))⟩) ∧
    (∀ (status : Nat) (fields : List (String × JsonVal)) (e : String),
      lookupPairs fields "error" = some (.str e) → e ≠ "" →
      (trackEvent c env store opts (.jsonOk false status (.obj fields))).result =
        ⟨false, none, some (.str e)⟩) ∧
    (∀ (status : Nat) (fields : List (String × JsonVal)),
      lookupPairs fields "error" = none →
      (trackEvent c env store opts (.jsonOk false status (.obj fields))).result =
        ⟨false, none, some (.str ("HTTP " ++ toString status))⟩) ∧
    (∀ m, (trackEvent c env store opts (.netError m)).result =
      ⟨false, none, some (.str (errMessage m))⟩) ∧
    (∀ ok status m, (trackEvent c env store opts (.jsonError ok status m)).result =
      ⟨false, none, some (.str (errMessage m))⟩) := by
  refine ⟨?_, ?_, fun m => rfl, fun ok status m => rfl, ?_, ?_, fun m => rfl,
    fun ok status m => rfl⟩
  · intro status fields e h he
    have h0 : (submitEmail c env store email
        (.jsonOk false status (.obj fields)) nowIso).result =
        ⟨false, none, some (jsOrHttp (lookupPairs fields "error") status)⟩ := rfl
    have he2 : (e == "") = false := by simp [he]
    rw [h0, h]
    simp [jsOrHttp, jsTruthy, he2]
  · intro status fields h
    have h0 : (submitEmail c env store email
        (.jsonOk false status (.obj fields)) nowIso).result =
        ⟨false, none, some (jsOrHttp (lookupPairs fields "error") status)⟩ := rfl
    rw [h0, h]
    rfl
  · intro status fields e h he
    have h0 : (trackEvent c env store opts (.jsonOk false status (.obj fields))).result =
        ⟨false, none, some (jsOrHttp (lookupPairs fields "error") status)⟩ := rfl
    have he2 : (e == "") = false := by simp [he]
    rw [h0, h]
    simp [jsOrHttp, jsTruthy, he2]
  · intro status fields h
    have h0 : (trackEvent c env store opts (.jsonOk false status (.obj fields))).result =
        ⟨false, none, some (jsOrHttp (lookupPairs fields "error") status)⟩ := rfl
    rw [h0, h]
    rfl

/-- Witness for C2 at the concrete 409 duplicate response. -/
theorem c2_failure_envelope_witness :
    (submitEmail clientA envB [] "user@example.com"
      (.jsonOk false 409 (.obj [("error", .str "duplicate")])) "iso").result =
      ⟨false, none, some (.str "duplicate")⟩ :=
  (c2_failure_envelope clientA envB [] "user@example.com" "iso"
    ⟨"VIEW", none, none⟩).1 409 [("error", .str "duplicate")] "duplicate" rfl (by decide)

/-- C3 counterexample: a 2xx response whose JSON body is `null` makes
`submitEmail` return `{success: false}` (the `data.data` read throws
after the save), yet the submission record HAS been written: `submitted`
flips from `false` to `true`. -/
theorem c3_null_body_counterexample :
    (submitEmail clientA envB [] "x@y.z"
      (.jsonOk true 200 .null) "2026-02-03T04:05:06.000Z").result.success = false ∧
    jsField (hasSubmittedEmail clientA envB
      (submitEmail clientA envB [] "x@y.z"
        (.jsonOk true 200 .null) "2026-02-03T04:05:06.000Z").store) "submitted" =
      some (.bool true) ∧
    jsField (hasSubmittedEmail clientA envB ([] : LocalStorage)) "submitted" =
      some (.bool false) :=
  ⟨rfl, rfl, rfl⟩

/-- C3 (amended): every `submitEmail` call that fails because the
transport threw or the response was non-2xx — in particular the 409
`{error: "duplicate"}` case — leaves the store, and hence the
duplicate-check state, unchanged.  (The one failing path that does mutate
the record is a 2xx response with a JSON-`null` body, where the save
precedes the failure; see the counterexample.) -/
theorem c3_failure_leaves_record (c : Client) (env : Env) (store : LocalStorage)
    (email nowIso : String) :
    (∀ m, (submitEmail c env store email (.netError m) nowIso).store = store ∧
      (submitEmail c env store email (.netError m) nowIso).result.success = false) ∧
    (∀ ok status m,
      (submitEmail c env store email (.jsonError ok status m) nowIso).store = store ∧
      (submitEmail c env store email (.jsonError ok status m) nowIso).result.success = false) ∧
    (∀ status body,
      (submitEmail c env store email (.jsonOk false status body) nowIso).store = store ∧
      (submitEmail c env store email (.jsonOk false status body) nowIso).result.success = false) ∧
    ((submitEmail c env store email
        (.jsonOk false 409 (.obj [("error", .str "duplicate")])) nowIso).result =
      ⟨false, none, some (.str "duplicate")⟩ ∧
     (submitEmail c env store email
        (.jsonOk false 409 (.obj [("error", .str "duplicate")])) nowIso).store = store ∧
     hasSubmittedEmail c env (submitEmail c env store email
        (.jsonOk false 409 (.obj [("error", .str "duplicate")])) nowIso).store =
       hasSubmittedEmail c env store) := by
  refine ⟨fun m => ⟨rfl, rfl⟩, fun ok status m => ⟨rfl, rfl⟩,
    fun status body => ⟨(submitEmail_store_of_not_ok c env store email nowIso).2.2 status body, ?_⟩,
    rfl, (submitEmail_store_of_not_ok c env store email nowIso).2.2 409 _, ?_⟩
  · rcases body <;> rfl
  · rw [(submitEmail_store_of_not_ok c env store email nowIso).2.2 409 _]

/-- C4: with a well-formed unexpired stored record, every
`getOrCreateDeviceId` call returns the stored identifier and leaves
storage untouched (so two clients constructed over the same store share
one identifier); once the clock passes `expiresAt` the next call returns
the freshly generated identifier — distinct from the stored one whenever
the generator does not collide — and overwrites storage with it. -/
theorem c4_device_id_stability (env : Env) (store : LocalStorage) (d : String) (e : Int)
    (hW : env.hasWindow = true) (hLS : env.hasLocalStorage = true)
    (hG : env.getThrows = false) (hS : env.setThrows = false) (hR : env.removeThrows = false)
    (hst : getItem store DEVICE_ID_KEY =
      some (.json (.obj [("deviceId", .str d), ("expiresAt", .num e)]))) :
    (∀ (now : Int) (fresh : String), now < e →
      getOrCreateDeviceId env store now fresh = (some (.str d), store)) ∧
    (∀ cfg : LanorxConfig, cfg.projectId ≠ "" → cfg.apiKey ≠ "" →
      ∀ (now : Int) (fresh : String), now < e →
      (mkClient cfg env store now fresh).map (fun p => (p.1.deviceId, p.2)) =
        .ok (some (.str d), store)) ∧
    (∀ (now : Int) (fresh : String), e ≤ now →
      getOrCreateDeviceId env store now fresh =
        (some (.str fresh),
         setItem (removeItem store DEVICE_ID_KEY) DEVICE_ID_KEY
           (.json (newDeviceRecord fresh now))) ∧
      getItem (getOrCreateDeviceId env store now fresh).2 DEVICE_ID_KEY =
        some (.json (newDeviceRecord fresh now)) ∧
      (fresh ≠ d → (some (JsonVal.str fresh) : Option JsonVal) ≠ some (.str d))) := by
  have hf : jsField (JsonVal.obj [("deviceId", .str d), ("expiresAt", .num e)]) "expiresAt" =
      some (.num e) := rfl
  have hd : jsField (JsonVal.obj [("deviceId", .str d), ("expiresAt", .num e)]) "deviceId" =
      some (.str d) := rfl
  have main : ∀ (now : Int) (fresh : String), now < e →
      getOrCreateDeviceId env store now fresh = (some (.str d), store) := by
    intro now fresh hlt
    have hj : jsLtNum now (some (.num e)) = true := by
      simp [jsLtNum, jsToNumber, hlt]
    simp [getOrCreateDeviceId, hW, hLS, hG, hst, hf, hd, hj]
  refine ⟨main, ?_, ?_⟩
  · intro cfg h1 h2 now fresh hlt
    simp [mkClient, h1, h2, main now fresh hlt, Except.map]
  · intro now fresh hge
    have hj : jsLtNum now (some (.num e)) = false := by
      simp [jsLtNum, jsToNumber]
      omega
    have h1 : getOrCreateDeviceId env store now fresh =
        (some (.str fresh),
         setItem (removeItem store DEVICE_ID_KEY) DEVICE_ID_KEY
           (.json (newDeviceRecord fresh now))) := by
      simp [getOrCreateDeviceId, hW, hLS, hG, hR, hS, hst, hf, hj, writeNewDeviceId]
    refine ⟨h1, ?_, fun hne => by simp [hne]⟩
    rw [h1]
    exact getItem_setItem_self _ _ _

/-- Witness for C4: stored identifier `"abc"` with expiry `2000` is
returned unchanged at time `1000`, and replaced by the fresh `"zzz"` at
time `3000`. -/
theorem c4_device_id_stability_witness :
    getOrCreateDeviceId envB storeDev 1000 "zzz" = (some (.str "abc"), storeDev) ∧
    getOrCreateDeviceId envB storeDev 3000 "zzz" =
      (some (.str "zzz"),
       setItem (removeItem storeDev DEVICE_ID_KEY) DEVICE_ID_KEY
         (.json (newDeviceRecord "zzz" 3000))) :=
  ⟨(c4_device_id_stability envB storeDev "abc" 2000 rfl rfl rfl rfl rfl rfl).1 1000 "zzz"
      (by decide),
   ((c4_device_id_stability envB storeDev "abc" 2000 rfl rfl rfl rfl rfl rfl).2.2 3000 "zzz"
      (by decide)).1⟩

/-- C5: an empty/missing `projectId` or `apiKey` makes construction throw
synchronously — the error is independent of the storage state, i.e. it
happens before any storage access (and the constructor performs no
network request at all); with both fields non-empty, construction never
throws. -/
theorem c5_construction_fail_fast (cfg : LanorxConfig) (env : Env) (now : Int)
    (fresh : String) :
    (cfg.projectId = "" →
      ∀ store : LocalStorage, mkClient cfg env store now fresh = .error "projectId is required") ∧
    (cfg.projectId ≠ "" → cfg.apiKey = "" →
      ∀ store : LocalStorage, mkClient cfg env store now fresh = .error "apiKey is required") ∧
    (cfg.projectId ≠ "" → cfg.apiKey ≠ "" →
      ∀ store : LocalStorage, exceptOk (mkClient cfg env store now fresh) = true) := by
  refine ⟨?_, ?_, ?_⟩
  · intro h store
    simp [mkClient, h]
  · intro h1 h2 store
    simp [mkClient, h1, h2]
  · intro h1 h2 store
    simp [mkClient, h1, h2, exceptOk]

/-- Witness for C5: an empty `projectId` throws; a fully populated config
constructs successfully. -/
theorem c5_construction_fail_fast_witness :
    mkClient ⟨"", "lnx_sk_key", none⟩ envB [] 0 "f" = .error "projectId is required" ∧
    exceptOk (mkClient ⟨"proj_123", "lnx_sk_key", none⟩ envB [] 0 "f") = true :=
  ⟨(c5_construction_fail_fast ⟨"", "lnx_sk_key", none⟩ envB 0 "f").1 rfl [],
   (c5_construction_fail_fast ⟨"proj_123", "lnx_sk_key", none⟩ envB 0 "f").2.2
     (by decide) (by decide) []⟩

/-- C6 counterexample: from an empty store, a single `submitEmail` that
gets a 2xx response with a JSON-`null` body returns `{success: false}` —
so no call succeeded — yet the submission record for the project exists
afterwards, breaking the claimed "record exists iff a prior submitEmail
succeeded" equivalence. -/
theorem c6_record_without_success_counterexample :
    (submitEmail clientA envB [] "e@f.g"
      (.jsonOk true 200 .null) "2026-01-02T03:04:05.000Z").result.success = false ∧
    (getItem (runOps clientA envB []
        [.submit "e@f.g" (.jsonOk true 200 .null) "2026-01-02T03:04:05.000Z"])
      (emailKey "proj_123")).isSome = true :=
  ⟨rfl, rfl⟩

/-- C6 (amended): over any trace of SDK operations on working storage,
starting with no record for the project: `hasSubmittedEmail` returns
`{submitted: false}` while no `submitEmail` has received a 2xx response;
immediately after a `submitEmail` that returns `{success: true}` it
returns `{submitted: true, email, submittedAt}` with `email` exactly the
submitted string; and the record exists iff some `submitEmail` received a
2xx response (which is weaker than the call having succeeded: a 2xx
JSON-`null` body creates the record but fails the call). -/
theorem c6_submission_invariant (c : Client) (env : Env) (store0 : LocalStorage)
    (hW : env.hasWindow = true) (hLS : env.hasLocalStorage = true)
    (hG : env.getThrows = false) (hS : env.setThrows = false)
    (h0 : getItem store0 (emailKey c.projectId) = none) :
    (∀ ops : List SdkOp, ops.any opCreatesRecord = false →
      hasSubmittedEmail c env (runOps c env store0 ops) = notSubmitted) ∧
    (∀ (store : LocalStorage) (email : String) (status : Nat) (body : JsonVal)
        (nowIso : String),
      (submitEmail c env store email (.jsonOk true status body) nowIso).result.success = true →
      hasSubmittedEmail c env
        (submitEmail c env store email (.jsonOk true status body) nowIso).store =
        submissionRecord email nowIso) ∧
    (∀ ops : List SdkOp,
      (getItem (runOps c env store0 ops) (emailKey c.projectId)).isSome =
        ops.any opCreatesRecord) := by
  have hcell : ∀ ops : List SdkOp,
      (getItem (runOps c env store0 ops) (emailKey c.projectId)).isSome =
        ops.any opCreatesRecord := by
    intro ops
    rw [runOps_email_cell c env hW hLS hS ops store0, h0]
    simp
  refine ⟨?_, ?_, hcell⟩
  · intro ops hno
    have h3 := hcell ops
    rw [hno] at h3
    have h4 : getItem (runOps c env store0 ops) (emailKey c.projectId) = none := by
      rcases hx : getItem (runOps c env store0 ops) (emailKey c.projectId) with _ | v
      · rfl
      · rw [hx] at h3
        simp at h3
    simp [hasSubmittedEmail, getEmailSubmissionData, hW, hLS, hG, h4]
  · intro store email status body nowIso hsucc
    have hsave : saveEmailSubmission env store c.projectId email nowIso =
        setItem store (emailKey c.projectId) (.json (submissionRecord email nowIso)) := by
      rw [saveEmailSubmission, if_neg (by simp [hW, hLS]), if_neg (by simp [hS])]
    rcases body with _ | b | n | s | fs | es
    · exact absurd hsucc (by simp [submitEmail])
    all_goals
      rw [submitEmail_store_of_ok c env store email nowIso status _, hsave]
    all_goals
      simp [hasSubmittedEmail, getEmailSubmissionData, hW, hLS, hG, getItem_setItem_self]

/-- Witness for C6: a concrete trace with one 2xx submission creates the
record, and a successful submission is immediately visible through
`hasSubmittedEmail` with the exact email. -/
theorem c6_submission_invariant_witness :
    ((getItem (runOps clientA envB []
        [SdkOp.submit "a@b.c" (.jsonOk true 200 (.obj [("data", .null)])) "iso"])
      (emailKey "proj_123")).isSome =
      List.any [SdkOp.submit "a@b.c" (.jsonOk true 200 (.obj [("data", .null)])) "iso"]
        opCreatesRecord) ∧
    hasSubmittedEmail clientA envB
      (submitEmail clientA envB [] "a@b.c"
        (.jsonOk true 200 (.obj [("data", .null)])) "iso").store =
      submissionRecord "a@b.c" "iso" :=
  ⟨(c6_submission_invariant clientA envB [] rfl rfl rfl rfl rfl).2.2 _,
   (c6_submission_invariant clientA envB [] rfl rfl rfl rfl rfl).2.1 [] "a@b.c" 200
     (.obj [("data", .null)]) "iso" rfl⟩

/-- C8 failing input, evaluated: with the browser present and no storage
access throwing, a stored cell `{"deviceId": 42, "expiresAt": <future>}`
makes `getOrCreateDeviceId` return the number `42` — neither `null` nor a
string — contradicting the claim (and the declared
`string | null` return type): the parsed record is never structurally
validated. -/
theorem c8_nonstring_device_id_return :
    getOrCreateDeviceId envB
      [(DEVICE_ID_KEY, .json (.obj [("deviceId", .num 42), ("expiresAt", .num 4102444800000)]))]
      1700000000000 "fresh-uuid" =
      (some (.num 42),
       [(DEVICE_ID_KEY,
         .json (.obj [("deviceId", .num 42), ("expiresAt", .num 4102444800000)]))]) ∧
    (some (JsonVal.num 42) : Option JsonVal) ≠ some JsonVal.null ∧
    ∀ s : String, (some (JsonVal.num 42) : Option JsonVal) ≠ some (JsonVal.str s) :=
  ⟨rfl, by simp, fun s => by simp⟩

/-- C9 failing input, evaluated: a stored cell `{"expiresAt": <future>}`
fails structural parsing into a `{deviceId, expiresAt}` record (no
`deviceId`), yet `getOrCreateDeviceId` does not discard it or generate a
fresh identifier: `JSON.parse` succeeds, the unvalidated `expiresAt`
comparison passes, and the function returns the absent field —
`undefined` (`none`) — leaving the malformed value in storage. -/
theorem c9_malformed_record_kept :
    getOrCreateDeviceId envB
      [(DEVICE_ID_KEY, .json (.obj [("expiresAt", .num 4102444800000)]))]
      1700000000000 "fresh-uuid" =
      (none, [(DEVICE_ID_KEY, .json (.obj [("expiresAt", .num 4102444800000)]))]) ∧
    (none : Option JsonVal) ≠ some (.str "fresh-uuid") :=
  ⟨rfl, by simp⟩

/-- C10: when the device identifier resolved to `null` (as construction
yields whenever `localStorage` is unavailable), `submitEmail` and
`trackEvent` still issue their request normally, the POST body carries
`deviceId: null` (the key is serialized, since `null` survives
`JSON.stringify`), and the result envelope is exactly what it would have
been with any other device identifier — the `null` never by itself causes
a failure or an exception. -/
theorem c10_null_device_id (pid key url : String) (env : Env) (store : LocalStorage)
    (email nowIso : String) (opts : EventTrackOptions) (outcome : FetchOutcome) :
    lookupPairs (submitEmail ⟨pid, key, url, some .null⟩ env store email
        outcome nowIso).request.body "deviceId" = some .null ∧
    lookupPairs (trackEvent ⟨pid, key, url, some .null⟩ env store opts
        outcome).request.body "deviceId" = some .null ∧
    (submitEmail ⟨pid, key, url, some .null⟩ env store email outcome nowIso).request.url =
      url ++ "/api/v1/projects/" ++ pid ++ "/emails" ∧
    (∀ d : Option JsonVal,
      (submitEmail ⟨pid, key, url, d⟩ env store email outcome nowIso).result =
        (submitEmail ⟨pid, key, url, some .null⟩ env store email outcome nowIso).result) ∧
    (∀ d : Option JsonVal,
      (trackEvent ⟨pid, key, url, d⟩ env store opts outcome).result =
        (trackEvent ⟨pid, key, url, some .null⟩ env store opts outcome).result) ∧
    (∀ cfg : LanorxConfig, cfg.projectId ≠ "" → cfg.apiKey ≠ "" →
      env.hasLocalStorage = false → ∀ (now : Int) (fresh : String),
      (mkClient cfg env store now fresh).map (fun p => p.1.deviceId) = .ok (some .null)) := by
  have hreq1 : (submitEmail ⟨pid, key, url, some .null⟩ env store email
      outcome nowIso).request =
      ⟨url ++ "/api/v1/projects/" ++ pid ++ "/emails", "Bearer " ++ key,
       submitEmailBody ⟨pid, key, url, some .null⟩ env email⟩ := by
    rcases outcome with m | ⟨ok, status, m⟩ | ⟨ok, status, body⟩
    · rfl
    · rfl
    · rcases ok <;> rcases body <;> rfl
  have hreq2 : (trackEvent ⟨pid, key, url, some .null⟩ env store opts outcome).request =
      ⟨url ++ "/api/v1/projects/" ++ pid ++ "/events", "Bearer " ++ key,
       trackEventBody ⟨pid, key, url, some .null⟩ env opts⟩ := by
    rcases outcome with m | ⟨ok, status, m⟩ | ⟨ok, status, body⟩
    · rfl
    · rfl
    · rcases ok <;> rcases body <;> rfl
  refine ⟨?_, ?_, ?_, ?_, ?_, ?_⟩
  · rw [hreq1]
    simp [submitEmailBody, dropUndef, lookupPairs]
  · rw [hreq2]
    rcases opts with ⟨ty, cid, meta⟩
    rcases cid with _ | s <;> simp [trackEventBody, dropUndef, lookupPairs]
  · rw [hreq1]
  · intro d
    rcases outcome with m | ⟨ok, status, m⟩ | ⟨ok, status, body⟩
    · rfl
    · rfl
    · rcases ok <;> rcases body <;> rfl
  · intro d
    rcases outcome with m | ⟨ok, status, m⟩ | ⟨ok, status, body⟩
    · rfl
    · rfl
    · rcases ok <;> rcases body <;> rfl
  · intro cfg h1 h2 hLSf now fresh
    simp [mkClient, h1, h2, getOrCreateDeviceId, hLSf, Except.map]

/-- Witness for C10: a client constructed without `localStorage` has a
`null` device identifier, and its `submitEmail` body says `deviceId:
null` while the call still succeeds on a 2xx response. -/
theorem c10_null_device_id_witness :
    (mkClient ⟨"proj_123", "lnx_sk_key", none⟩ envNoStore [] 0 "f").map
      (fun p => p.1.deviceId) = .ok (some .null) ∧
    lookupPairs (submitEmail ⟨"proj_123", "lnx_sk_key", "https://www.lanorx.com", some .null⟩
        envNoStore [] "a@b.c" (.jsonOk true 200 (.obj [("data", .null)])) "iso").request.body
      "deviceId" = some .null :=
  ⟨(c10_null_device_id "proj_123" "lnx_sk_key" "https://www.lanorx.com" envNoStore []
      "a@b.c" "iso" ⟨"VIEW", none, none⟩ (.jsonOk true 200 (.obj [("data", .null)]))).2.2.2.2.2
      ⟨"proj_123", "lnx_sk_key", none⟩ (by decide) (by decide) rfl 0 "f",
   (c10_null_device_id "proj_123" "lnx_sk_key" "https://www.lanorx.com" envNoStore []
      "a@b.c" "iso" ⟨"VIEW", none, none⟩ (.jsonOk true 200 (.obj [("data", .null)]))).1⟩
